import Mathlib

/-!
Verification of the authentication and authorization core of the
role-based academic records backend (`src/services/authService.js`,
`src/middlewares/auth.middleware.js`, `src/middlewares/rbac.middleware.js`,
`src/models/Admin.model.js`, `src/models/Token.model.js`,
`src/controllers/auth.controller.js`).

The JavaScript code is shallowly embedded:
* the document database is an explicit `DB` state (three identity
  collections plus the reset-token collection) threaded through the
  service operations, which return `Except Err (result × DB)`;
* bcrypt is idealized: a hash records its salt and the plaintext it was
  derived from, and `bcryptCompare` succeeds exactly on the original
  plaintext (no collisions, salted hashes differ across salts);
* SHA-256 is idealized as an injective tagging function;
* a JWT is a record of its payload, issue time, expiry and the secret it
  was signed with; verification checks the secret (signature) and expiry;
* JavaScript `undefined` on optional request-context fields is `Option`,
  and the JS `<` comparison (which is false when one side is `undefined`)
  is `jsLt` on `Option Nat`.
-/

namespace Portal

/-- Idealized bcrypt hash: `bcrypt.hash(pw, salt)` in
`src/services/authService.js`. Distinct salts give distinct hashes; the
plaintext is recoverable only through `bcryptCompare`. -/
structure BcryptHash where
  salt : Nat
  pw : String
deriving Repr, DecidableEq

/-- `bcrypt.hash(password, salt)`. -/
def bcryptHash (pw : String) (salt : Nat) : BcryptHash := ⟨salt, pw⟩

/-- `bcrypt.compare(plaintext, storedHash)`: true iff the hash was derived
from this plaintext. -/
def bcryptCompare (pw : String) (h : BcryptHash) : Bool := pw == h.pw

/-- Idealized collision-free model of
`crypto.createHash('sha256').update(s).digest('hex')`. -/
def sha256Hex (s : String) : String := "sha256$" ++ s

/-- JavaScript `String.prototype.toLowerCase()` (character-wise, which
matches it on the ASCII identifiers this code lowercases). -/
def jsToLower (s : String) : String := ⟨s.data.map Char.toLower⟩

/-- An identity document: the common shape of the Admin, Teacher and
Student collections (`src/models/*.model.js`) as used by the auth core. -/
structure Identity where
  _id : Nat
  email : String
  password : BcryptHash
  firstName : String
  lastName : String
deriving Repr, DecidableEq

/-- A reset-token document (`src/models/Token.model.js` `tokenSchema`).
`token` stores the SHA-256 hash of the raw secret (the pre-save hook
hashes it); `expiresAt` and the current time are milliseconds. -/
structure TokenDoc where
  _id : Nat
  user : Nat
  userModel : String
  token : String
  type : String
  expiresAt : Nat
  used : Bool
deriving Repr, DecidableEq

/-- The database state: the three identity collections, the token
collection, and counters supplying fresh ObjectIds and bcrypt salts. -/
structure DB where
  admins : List Identity
  teachers : List Identity
  students : List Identity
  tokens : List TokenDoc
  nextId : Nat
  nextSalt : Nat
deriving Repr, DecidableEq

/-- Server configuration (`process.env.JWT_SECRET`, `JWT_EXPIRE`). -/
structure Config where
  jwtSecret : String
  jwtExpireMs : Nat
deriving Repr, DecidableEq

/-- JWT payload issued by `AuthService.generateToken`: `{ id, role }`. -/
structure JwtPayload where
  id : Nat
  role : String
deriving Repr, DecidableEq

/-- A signed JWT: payload, issue time, expiry, and the secret that signed
it (an unforgeable signature is modelled by equality of secrets). -/
structure SignedToken where
  payload : JwtPayload
  iat : Nat
  exp : Nat
  secret : String
deriving Repr, DecidableEq

/-- A typed error (`src/utils/errorResponse.js` `ErrorResponse`). -/
structure Err where
  message : String
  statusCode : Nat
deriving Repr, DecidableEq

/-- `jwt.sign({id, role}, secret, {expiresIn})`. -/
def jwtSign (payload : JwtPayload) (secret : String) (now ttlMs : Nat) : SignedToken :=
  ⟨payload, now, now + ttlMs, secret⟩

/-- `jwt.verify(token, secret)` at time `now`: accepts iff the token was
signed with `secret` and has not expired. -/
def jwtVerify (t : SignedToken) (secret : String) (now : Nat) : Except Err JwtPayload :=
  if t.secret ≠ secret then .error ⟨"invalid signature", 401⟩
  else if t.exp ≤ now then .error ⟨"jwt expired", 401⟩
  else .ok t.payload

/-- `AuthService.generateToken(userId, role)`. -/
def generateToken (userId : Nat) (role : String) (cfg : Config) (now : Nat) : SignedToken :=
  jwtSign ⟨userId, role⟩ cfg.jwtSecret now cfg.jwtExpireMs

/-- `AuthService.verifyToken(token)`: any JWT failure becomes
`ErrorResponse('Invalid token', 401)`. -/
def verifyToken (t : SignedToken) (cfg : Config) (now : Nat) : Except Err JwtPayload :=
  match jwtVerify t cfg.jwtSecret now with
  | .ok p => .ok p
  | .error _ => .error ⟨"Invalid token", 401⟩

/-- The collection selected by a role string
(`AuthService.userModels[role]`): keys `admin`, `teacher`, `student`. -/
def getCollection (role : String) (db : DB) : Option (List Identity) :=
  if role == "admin" then some db.admins
  else if role == "teacher" then some db.teachers
  else if role == "student" then some db.students
  else none

/-- Replace the collection selected by `role` (other collections and the
token store unchanged). -/
def setCollection (role : String) (l : List Identity) (db : DB) : DB :=
  if role == "admin" then { db with admins := l }
  else if role == "teacher" then { db with teachers := l }
  else if role == "student" then { db with students := l }
  else db

/-- `AuthService.findUserByEmail(email)`: probes Admin, then Teacher, then
Student (the `Object.entries(userModels)` insertion order), returning the
first match together with its role. -/
def findUserByEmail (email : String) (db : DB) : Option (Identity × String) :=
  match db.admins.find? (fun u => u.email == email) with
  | some u => some (u, "admin")
  | none =>
    match db.teachers.find? (fun u => u.email == email) with
    | some u => some (u, "teacher")
    | none =>
      match db.students.find? (fun u => u.email == email) with
      | some u => some (u, "student")
      | none => none

/-- `AuthService.findUserById(id, role)`: `null` for an unknown role,
otherwise a primary-key lookup in the role's collection. -/
def findUserById (id : Nat) (role : String) (db : DB) : Option Identity :=
  match getCollection role db with
  | none => none
  | some l => l.find? (fun u => u._id == id)

/-- The sanitized user view returned by register/login/refresh:
`{ id, email, firstName, lastName, role }`. -/
structure UserView where
  id : Nat
  email : String
  firstName : String
  lastName : String
  role : String
deriving Repr, DecidableEq

def userView (u : Identity) (role : String) : UserView :=
  ⟨u._id, u.email, u.firstName, u.lastName, role⟩

/-- Result of `AuthService.register` / `AuthService.login`. -/
structure AuthResult where
  user : UserView
  token : SignedToken
deriving Repr, DecidableEq

/-- `AuthService.register({email, password, firstName, lastName, role})`:
rejects an email present in any collection (400), then an invalid role
(400); otherwise hashes the password with a fresh salt, inserts the new
identity into the role's collection and issues a token for its id+role. -/
def register (email password firstName lastName role : String)
    (cfg : Config) (now : Nat) (db : DB) : Except Err (AuthResult × DB) :=
  match findUserByEmail email db with
  | some _ => .error ⟨"User already exists with this email", 400⟩
  | none =>
    match getCollection role db with
    | none => .error ⟨"Invalid role specified", 400⟩
    | some l =>
      let hashed := bcryptHash password db.nextSalt
      let user : Identity := ⟨db.nextId, email, hashed, firstName, lastName⟩
      let db1 := setCollection role (l ++ [user])
        { db with nextId := db.nextId + 1, nextSalt := db.nextSalt + 1 }
      .ok (⟨userView user role, generateToken user._id role cfg now⟩, db1)

/-- `AuthService.login(email, password)`: 404 `Account not found` when no
collection holds the email; 401 `Incorrect password` when the bcrypt
comparison fails; otherwise the user view plus a fresh token. -/
def login (email password : String) (cfg : Config) (now : Nat) (db : DB) :
    Except Err AuthResult :=
  match findUserByEmail email db with
  | none => .error ⟨"Account not found", 404⟩
  | some (u, role) =>
    if bcryptCompare password u.password then
      .ok ⟨userView u role, generateToken u._id role cfg now⟩
    else
      .error ⟨"Incorrect password", 401⟩

/-- `Token.deleteOne({_id})`: remove the first document with this id. -/
def deleteOneById (id : Nat) : List TokenDoc → List TokenDoc
  | [] => []
  | t :: ts => if t._id == id then ts else t :: deleteOneById id ts

/-- Update the password of the identity `uid` inside the collection
selected by `role` (the `user.password = hashed; await user.save()` step;
the pre-save hook skips re-hashing because the value is already a bcrypt
hash). -/
def updatePassword (role : String) (uid : Nat) (h : BcryptHash) (db : DB) : DB :=
  match getCollection role db with
  | none => db
  | some l =>
    setCollection role
      (l.map (fun u => if u._id == uid then { u with password := h } else u)) db

/-- `AuthService.resetPassword(token, newPassword)`: hashes the raw token
and looks for a stored token matching on hash, type `password-reset` and
`expiresAt > Date.now()` — the query does NOT filter on the `used` flag.
On a match it re-hashes the new password into the owner's identity
(dispatching on `tokenDoc.userModel.toLowerCase()`) and deletes the token
document. -/
def resetPassword (rawToken newPassword : String) (now : Nat) (db : DB) :
    Except Err (String × DB) :=
  let resetTokenHash := sha256Hex rawToken
  match db.tokens.find? (fun t =>
      t.token == resetTokenHash && t.type == "password-reset" && now < t.expiresAt) with
  | none => .error ⟨"Invalid or expired reset token", 400⟩
  | some tokenDoc =>
    let roleFromModel := jsToLower tokenDoc.userModel
    match findUserById tokenDoc.user roleFromModel db with
    | none => .error ⟨"User not found", 404⟩
    | some _ =>
      let hashed := bcryptHash newPassword db.nextSalt
      let db1 := updatePassword roleFromModel tokenDoc.user hashed
        { db with nextSalt := db.nextSalt + 1 }
      let db2 := { db1 with tokens := deleteOneById tokenDoc._id db1.tokens }
      .ok ("Password reset successful", db2)

/-- The `register` controller (`src/controllers/auth.controller.js`):
validates the role against `ALLOWED_ROLES`, caps the admin collection at
two accounts (403), delegates to `AuthService.register` and wraps a
success as HTTP 201. -/
def registerEndpoint (email password firstName lastName role : String)
    (cfg : Config) (now : Nat) (db : DB) : Except Err (Nat × AuthResult × DB) :=
  if !(["admin", "teacher", "student"].contains role) then
    .error ⟨"Invalid role specified", 400⟩
  else if role == "admin" && 2 ≤ db.admins.length then
    .error ⟨"Admin registration limit reached. Only two admins are allowed.", 403⟩
  else
    match register email password firstName lastName role cfg now db with
    | .error e => .error e
    | .ok (r, db1) => .ok (201, r, db1)

/-! ### Access-control middleware (`src/middlewares`) -/

/-- The request context attached by `protect`
(`src/middlewares/auth.middleware.js` lines 53-59). `roleType` and
`permissions` are `Option`s because a JS object simply lacks the field
(`undefined`) when it was not assigned. -/
structure ReqUser where
  id : Nat
  email : String
  firstName : String
  lastName : String
  role : String
  roleType : Option String
  permissions : Option (List String)
deriving Repr, DecidableEq

/-- Outcome of an Express middleware: `next()` or `next(new
ErrorResponse(message, status))`. -/
inductive MwOut where
  | next : MwOut
  | err (message : String) (status : Nat) : MwOut
deriving Repr, DecidableEq

/-- `ROLE_HIERARCHY[role]` (`src/middlewares/rbac.middleware.js`): the
object literal keyed by the `ROLES` constants (`admin`/`teacher`/
`student`, `src/constants/roles.js`); any other key reads `undefined`. -/
def roleHierarchy (role : String) : Option Nat :=
  if role == "admin" then some 3
  else if role == "teacher" then some 2
  else if role == "student" then some 1
  else none

/-- The JavaScript `<` comparison on two possibly-`undefined` numbers:
`undefined` coerces to `NaN` and every comparison with `NaN` is false. -/
def jsLt : Option Nat → Option Nat → Bool
  | some a, some b => a < b
  | _, _ => false

/-- `requireMinRole(minRole)` applied to a request: 401 without a user,
403 when `ROLE_HIERARCHY[user.role] < ROLE_HIERARCHY[minRole]` (JS
semantics), otherwise `next()`. -/
def requireMinRole (minRole : String) (reqUser : Option ReqUser) : MwOut :=
  match reqUser with
  | none => .err "Authentication required" 401
  | some u =>
    let userRoleLevel := roleHierarchy u.role
    let requiredRoleLevel := roleHierarchy minRole
    if jsLt userRoleLevel requiredRoleLevel then
      .err ("Role '" ++ u.role ++ "' does not have sufficient privileges") 403
    else
      .next

/-- `req.user.permissions?.includes(p)`: `undefined` (no field) is falsy. -/
def permsIncludes (perms : Option (List String)) (p : String) : Bool :=
  match perms with
  | none => false
  | some l => l.contains p

/-- `requirePermission(permission)`: an admin whose context carries
`roleType === 'super_admin'` bypasses the check; otherwise the context's
permission array must contain the permission, else 403. -/
def requirePermission (permission : String) (reqUser : Option ReqUser) : MwOut :=
  match reqUser with
  | none => .err "Authentication required" 401
  | some u =>
    if u.role == "admin" && u.roleType == some "super_admin" then
      .next
    else if !(permsIncludes u.permissions permission) then
      .err ("Insufficient permissions. Required: " ++ permission) 403
    else
      .next

/-- `requireAnyPermission(...permissions)`: same super-admin bypass;
otherwise at least one required permission must be in the context. -/
def requireAnyPermission (permissions : List String) (reqUser : Option ReqUser) : MwOut :=
  match reqUser with
  | none => .err "Authentication required" 401
  | some u =>
    if u.role == "admin" && u.roleType == some "super_admin" then
      .next
    else if permissions.any (fun p => permsIncludes u.permissions p) then
      .next
    else
      .err ("Insufficient permissions. Required one of: " ++
        String.intercalate ", " permissions) 403

/-- The `protect` middleware (`src/middlewares/auth.middleware.js`),
starting from the extracted bearer token (the `Bearer <token>` header
parsing is abstracted into the `Option`): verifies the token, loads the
identity by the claims' id+role, and attaches
`{ id, email, firstName, lastName, role }` — and nothing else — as
`req.user`. -/
def protect (token : Option SignedToken) (cfg : Config) (now : Nat) (db : DB) :
    Except Err ReqUser :=
  match token with
  | none => .error ⟨"Not authorized to access this route - no token found", 401⟩
  | some t =>
    match verifyToken t cfg now with
    | .error _ => .error ⟨"Not authorized to access this route - invalid token", 401⟩
    | .ok decoded =>
      match findUserById decoded.id decoded.role db with
      | none => .error ⟨"Not authorized to access this route - user not found", 401⟩
      | some u => .ok ⟨u._id, u.email, u.firstName, u.lastName, decoded.role, none, none⟩

/-! ### Admin permission model (`src/models/Admin.model.js`) -/

/-- `Object.values(ADMIN_PERMISSIONS)`: the canonical permission enum. -/
def adminPermissionValues : List String :=
  ["manage_users", "manage_roles", "manage_courses", "manage_subjects",
   "manage_grades", "manage_settings", "view_audit_logs",
   "manage_announcements", "manage_resources"]

/-- `PERMISSION_ALIASES`: legacy/shorthand keys mapped to canonical
values. -/
def permissionAliases : List (String × String) :=
  [("system_settings", "manage_settings"),
   ("settings", "manage_settings"),
   ("audit_logs", "view_audit_logs"),
   ("users", "manage_users"),
   ("roles", "manage_roles"),
   ("courses", "manage_courses"),
   ("subjects", "manage_subjects"),
   ("grades", "manage_grades"),
   ("announcements", "manage_announcements"),
   ("resources", "manage_resources")]

/-- `normalizePermission(value)`: falsy values pass through, a value whose
lowercase form is already canonical becomes that lowercase form, an alias
becomes its canonical value, anything else is returned unchanged. -/
def normalizePermission (value : String) : String :=
  if value == "" then value
  else
    let key := jsToLower value
    if adminPermissionValues.contains key then key
    else
      match (permissionAliases.find? (fun kv => kv.fst == key)).map Prod.snd with
      | some c => c
      | none => value

/-- The `pre('validate')` hook body (also the array treatment of the
`pre('findOneAndUpdate')` hook): `permissions.map(normalizePermission)
.filter(Boolean)`. -/
def normalizePermissionList (ps : List String) : List String :=
  (ps.map normalizePermission).filter (fun s => s ≠ "")

/-- The create (save) path: the `pre('validate')` hook normalizes the
array, then Mongoose enum validation accepts iff every element is a
canonical permission; `some` is the persisted array, `none` a validation
failure. -/
def adminCreatePermissions (ps : List String) : Option (List String) :=
  let n := normalizePermissionList ps
  if n.all (fun p => adminPermissionValues.contains p) then some n else none

/-- The update (`findOneAndUpdate`) path: the pre-hook rewrites the
update's `permissions` array before validators run. -/
def adminUpdatePermissions (ps : List String) : List String :=
  normalizePermissionList ps

/-! ### Helper lemmas -/

lemma findUserByEmail_eq_none (email : String) (db : DB) :
    findUserByEmail email db = none ↔
      db.admins.find? (fun u => u.email == email) = none ∧
      db.teachers.find? (fun u => u.email == email) = none ∧
      db.students.find? (fun u => u.email == email) = none := by
  unfold findUserByEmail
  cases h1 : db.admins.find? (fun u => u.email == email) <;>
    cases h2 : db.teachers.find? (fun u => u.email == email) <;>
      cases h3 : db.students.find? (fun u => u.email == email) <;> simp

/-! ### Theorems for the claims -/

/-- Claim C5: a request context with role `admin` and
`roleType = 'super_admin'` passes `requirePermission(p)` and
`requireAnyPermission(ps)` for every required permission, regardless of
the contents of its stored permissions array. -/
theorem super_admin_bypasses_permission_gates (u : ReqUser) (perm : String)
    (perms : List String)
    (hrole : u.role = "admin") (htype : u.roleType = some "super_admin") :
    requirePermission perm (some u) = .next ∧
    requireAnyPermission perms (some u) = .next := by
  constructor <;> simp [requirePermission, requireAnyPermission, hrole, htype]

/-- Witness for C5 at a concrete super-admin context whose stored
permissions array is empty. -/
theorem super_admin_bypasses_permission_gates_witness :
    ((⟨1, "a@x.com", "A", "B", "admin", some "super_admin", some []⟩ : ReqUser).role
        = "admin" ∧
      (⟨1, "a@x.com", "A", "B", "admin", some "super_admin", some []⟩ : ReqUser).roleType
        = some "super_admin") ∧
    (requirePermission "manage_users"
        (some ⟨1, "a@x.com", "A", "B", "admin", some "super_admin", some []⟩) = .next ∧
      requireAnyPermission ["manage_grades", "manage_roles"]
        (some ⟨1, "a@x.com", "A", "B", "admin", some "super_admin", some []⟩) = .next) :=
  ⟨⟨rfl, rfl⟩,
    super_admin_bypasses_permission_gates _ "manage_users"
      ["manage_grades", "manage_roles"] rfl rfl⟩

/-- Claim C6: for roles with defined hierarchy ranks (admin 3, teacher 2,
student 1), `requireMinRole(minRole)` passes exactly when the caller's
rank is at least the required rank, and otherwise rejects with 403. -/
theorem requireMinRole_hierarchy (u : ReqUser) (minRole : String)
    (hu : u.role = "admin" ∨ u.role = "teacher" ∨ u.role = "student")
    (hm : minRole = "admin" ∨ minRole = "teacher" ∨ minRole = "student") :
    (requireMinRole minRole (some u) = .next ↔
      (roleHierarchy minRole).getD 0 ≤ (roleHierarchy u.role).getD 0) ∧
    ((roleHierarchy u.role).getD 0 < (roleHierarchy minRole).getD 0 →
      requireMinRole minRole (some u) =
        .err ("Role '" ++ u.role ++ "' does not have sufficient privileges") 403) := by
  rcases hu with h | h | h <;> rcases hm with h2 | h2 | h2 <;>
    simp [requireMinRole, roleHierarchy, jsLt, h, h2]

/-- Witness for C6: an admin passes a teacher-minimum gate, and the rank
comparison agrees. -/
theorem requireMinRole_hierarchy_witness :
    ((⟨1, "a@x.com", "A", "B", "admin", none, none⟩ : ReqUser).role = "admin" ∨
      (⟨1, "a@x.com", "A", "B", "admin", none, none⟩ : ReqUser).role = "teacher" ∨
      (⟨1, "a@x.com", "A", "B", "admin", none, none⟩ : ReqUser).role = "student") ∧
    ((requireMinRole "teacher"
        (some ⟨1, "a@x.com", "A", "B", "admin", none, none⟩) = .next ↔
      (roleHierarchy "teacher").getD 0 ≤ (roleHierarchy "admin").getD 0) ∧
    ((roleHierarchy "admin").getD 0 < (roleHierarchy "teacher").getD 0 →
      requireMinRole "teacher"
          (some ⟨1, "a@x.com", "A", "B", "admin", none, none⟩) =
        .err "Role 'admin' does not have sufficient privileges" 403)) :=
  ⟨Or.inl rfl,
    requireMinRole_hierarchy ⟨1, "a@x.com", "A", "B", "admin", none, none⟩ "teacher"
      (Or.inl rfl) (Or.inr (Or.inl rfl))⟩

/-- Claim C10: an authenticated context whose role has no hierarchy rank
(`ROLE_HIERARCHY[role]` is `undefined`) passes `requireMinRole(minRole)`
for every `minRole`, because the JS comparison
`undefined < requiredRoleLevel` is false. -/
theorem unknown_role_passes_requireMinRole (u : ReqUser) (minRole : String)
    (h : roleHierarchy u.role = none) :
    requireMinRole minRole (some u) = .next := by
  have hlt : ∀ x, jsLt none x = false := fun x => by cases x <;> rfl
  simp [requireMinRole, h, hlt]

/-- Witness for C10: a context with the unknown role `ghost` passes even
the admin-minimum gate. -/
theorem unknown_role_passes_requireMinRole_witness :
    roleHierarchy (⟨1, "g@x.com", "G", "H", "ghost", none, none⟩ : ReqUser).role
        = none ∧
    requireMinRole "admin"
        (some ⟨1, "g@x.com", "G", "H", "ghost", none, none⟩) = .next :=
  ⟨rfl,
    unknown_role_passes_requireMinRole ⟨1, "g@x.com", "G", "H", "ghost", none, none⟩
      "admin" rfl⟩

/-- Claim C4: `login` fails 404 `Account not found` when no collection
matches the email, fails 401 `Incorrect password` when an identity
matches but the bcrypt comparison fails, and the two error values are
distinct. -/
theorem login_failure_categories (email password : String) (cfg : Config)
    (now : Nat) (db : DB) :
    (findUserByEmail email db = none →
      login email password cfg now db = .error ⟨"Account not found", 404⟩) ∧
    (∀ u role, findUserByEmail email db = some (u, role) →
      bcryptCompare password u.password = false →
      login email password cfg now db = .error ⟨"Incorrect password", 401⟩) ∧
    (⟨"Account not found", 404⟩ : Err) ≠ (⟨"Incorrect password", 401⟩ : Err) := by
  refine ⟨fun h => by simp [login, h],
    fun u role h hpw => by simp [login, h, hpw], by decide⟩

/-- Witness for C4: the empty database yields 404; a database holding the
account yields 401 on a wrong password. -/
theorem login_failure_categories_witness :
    (findUserByEmail "a@x.com" ⟨[], [], [], [], 0, 0⟩ = none ∧
      login "a@x.com" "pw" ⟨"s", 1000⟩ 0 ⟨[], [], [], [], 0, 0⟩ =
        .error ⟨"Account not found", 404⟩) ∧
    (findUserByEmail "a@x.com"
        ⟨[], [], [⟨1, "a@x.com", bcryptHash "right" 0, "A", "B"⟩], [], 2, 1⟩ =
        some (⟨1, "a@x.com", bcryptHash "right" 0, "A", "B"⟩, "student") ∧
      bcryptCompare "wrong" (bcryptHash "right" 0) = false ∧
      login "a@x.com" "wrong" ⟨"s", 1000⟩ 0
          ⟨[], [], [⟨1, "a@x.com", bcryptHash "right" 0, "A", "B"⟩], [], 2, 1⟩ =
        .error ⟨"Incorrect password", 401⟩) :=
  ⟨⟨rfl, (login_failure_categories "a@x.com" "pw" ⟨"s", 1000⟩ 0
      ⟨[], [], [], [], 0, 0⟩).1 rfl⟩,
    ⟨rfl, rfl,
      (login_failure_categories "a@x.com" "wrong" ⟨"s", 1000⟩ 0
          ⟨[], [], [⟨1, "a@x.com", bcryptHash "right" 0, "A", "B"⟩], [], 2, 1⟩).2.1
        ⟨1, "a@x.com", bcryptHash "right" 0, "A", "B"⟩ "student" rfl rfl⟩⟩

/-- Claim C8: every alias maps to its canonical permission, a value that
is neither canonical (up to lowercasing) nor an alias is returned
unchanged, and normalization runs before validation on both the create
(save) and update (`findOneAndUpdate`) paths — in particular an admin
created with `permissions:["settings"]` persists `["manage_settings"]`
and passes enum validation. -/
theorem permission_normalization (v : String) :
    (∀ p ∈ permissionAliases, normalizePermission p.1 = p.2) ∧
    (v ≠ "" → adminPermissionValues.contains (jsToLower v) = false →
      permissionAliases.find? (fun kv => kv.fst == jsToLower v) = none →
      normalizePermission v = v) ∧
    adminCreatePermissions ["settings"] = some ["manage_settings"] ∧
    adminUpdatePermissions ["settings"] = ["manage_settings"] := by
  refine ⟨by decide, fun h1 h2 h3 => ?_, by decide, by decide⟩
  have hne : (v == "") = false := by
    simpa using h1
  have h2' : jsToLower v ∉ adminPermissionValues := by
    simpa using h2
  simp [normalizePermission, hne, h2', h3]

/-- Witness for C8: the alias `settings` normalizes to `manage_settings`,
and the unknown value `frobnicate` is left unchanged. -/
theorem permission_normalization_witness :
    normalizePermission "settings" = "manage_settings" ∧
    ("frobnicate" ≠ "" ∧
      adminPermissionValues.contains (jsToLower "frobnicate") = false ∧
      permissionAliases.find? (fun kv => kv.fst == jsToLower "frobnicate") = none ∧
      normalizePermission "frobnicate" = "frobnicate") :=
  ⟨(permission_normalization "x").1 ("settings", "manage_settings") (by decide),
    ⟨by decide, by decide, by decide,
      (permission_normalization "frobnicate").2.1 (by decide) (by decide) (by decide)⟩⟩

/-- Claim C9: whenever `protect` authenticates a request, the attached
context carries only `{id, email, firstName, lastName, role}` — its
`roleType` and `permissions` fields are absent (`undefined`) — and hence
`requirePermission(p)` composed after `protect` rejects every caller with
403 for every permission `p`, super admins included. -/
theorem protect_context_starves_permission_gate (token : Option SignedToken)
    (cfg : Config) (now : Nat) (db : DB) (u : ReqUser) (p : String)
    (h : protect token cfg now db = .ok u) :
    u.roleType = none ∧ u.permissions = none ∧
    requirePermission p (some u) =
      .err ("Insufficient permissions. Required: " ++ p) 403 := by
  have hu : u.roleType = none ∧ u.permissions = none := by
    cases token with
    | none => simp [protect] at h
    | some t =>
      cases hv : verifyToken t cfg now with
      | error e => simp [protect, hv] at h
      | ok decoded =>
        cases hf : findUserById decoded.id decoded.role db with
        | none => simp [protect, hv, hf] at h
        | some w =>
          simp [protect, hv, hf] at h
          cases h
          exact ⟨rfl, rfl⟩
  refine ⟨hu.1, hu.2, ?_⟩
  simp [requirePermission, hu.1, hu.2, permsIncludes]

/-- Witness for C9: a concrete request authenticated as a student is
rejected by `requirePermission("manage_users")`. -/
theorem protect_context_starves_permission_gate_witness :
    protect
        (some (generateToken 1 "student" ⟨"secret", 1000⟩ 0)) ⟨"secret", 1000⟩ 0
        ⟨[], [], [⟨1, "s@x.com", bcryptHash "pw" 0, "S", "T"⟩], [], 2, 1⟩ =
      .ok ⟨1, "s@x.com", "S", "T", "student", none, none⟩ ∧
    ((⟨1, "s@x.com", "S", "T", "student", none, none⟩ : ReqUser).roleType = none ∧
      (⟨1, "s@x.com", "S", "T", "student", none, none⟩ : ReqUser).permissions = none ∧
      requirePermission "manage_users"
          (some ⟨1, "s@x.com", "S", "T", "student", none, none⟩) =
        .err "Insufficient permissions. Required: manage_users" 403) :=
  ⟨rfl,
    protect_context_starves_permission_gate
      (some (generateToken 1 "student" ⟨"secret", 1000⟩ 0)) ⟨"secret", 1000⟩ 0
      ⟨[], [], [⟨1, "s@x.com", bcryptHash "pw" 0, "S", "T"⟩], [], 2, 1⟩
      ⟨1, "s@x.com", "S", "T", "student", none, none⟩ "manage_users" rfl⟩

lemma register_ok_spec (email password firstName lastName role : String)
    (cfg : Config) (now : Nat) (db : DB)
    (hrole : role = "admin" ∨ role = "teacher" ∨ role = "student")
    (hnew : findUserByEmail email db = none) :
    ∃ db1,
      register email password firstName lastName role cfg now db =
        .ok (⟨⟨db.nextId, email, firstName, lastName, role⟩,
              generateToken db.nextId role cfg now⟩, db1) ∧
      findUserByEmail email db1 =
        some (⟨db.nextId, email, bcryptHash password db.nextSalt,
               firstName, lastName⟩, role) ∧
      db1.admins.length = db.admins.length + (if role = "admin" then 1 else 0) := by
  obtain ⟨h1, h2, h3⟩ := (findUserByEmail_eq_none email db).mp hnew
  rcases hrole with hr | hr | hr <;> subst hr
  · refine ⟨{ db with
        admins := db.admins ++
          [⟨db.nextId, email, bcryptHash password db.nextSalt, firstName, lastName⟩],
        nextId := db.nextId + 1, nextSalt := db.nextSalt + 1 }, ?_, ?_, ?_⟩
    · simp [register, hnew, getCollection, setCollection, userView]
    · simp [findUserByEmail, List.find?_append, h1]
    · simp
  · refine ⟨{ db with
        teachers := db.teachers ++
          [⟨db.nextId, email, bcryptHash password db.nextSalt, firstName, lastName⟩],
        nextId := db.nextId + 1, nextSalt := db.nextSalt + 1 }, ?_, ?_, ?_⟩
    · simp [register, hnew, getCollection, setCollection, userView]
    · simp [findUserByEmail, List.find?_append, h1, h2]
    · simp
  · refine ⟨{ db with
        students := db.students ++
          [⟨db.nextId, email, bcryptHash password db.nextSalt, firstName, lastName⟩],
        nextId := db.nextId + 1, nextSalt := db.nextSalt + 1 }, ?_, ?_, ?_⟩
    · simp [register, hnew, getCollection, setCollection, userView]
    · simp [findUserByEmail, List.find?_append, h1, h2, h3]
    · simp

/-- Claim C7: with a fresh email (and, for the admin role, the admin cap
not yet reached) the first `register` succeeds with HTTP 201 and a token,
and a second `register` with the same email and role fails with the
duplicate-email conflict error (`User already exists with this email`,
status 400 — the spec's Conflict category, surfaced as `409/400` for this
endpoint) carrying no token; the failure happens before any identity is
persisted. -/
theorem register_duplicate_conflict (email password firstName lastName
    password2 firstName2 lastName2 role : String)
    (cfg : Config) (now now2 : Nat) (db : DB)
    (hrole : role = "admin" ∨ role = "teacher" ∨ role = "student")
    (hnew : findUserByEmail email db = none)
    (hcap : role = "admin" → db.admins.length = 0) :
    ∃ r db1,
      registerEndpoint email password firstName lastName role cfg now db =
        .ok (201, r, db1) ∧
      registerEndpoint email password2 firstName2 lastName2 role cfg now2 db1 =
        .error ⟨"User already exists with this email", 400⟩ := by
  obtain ⟨db1, hreg, hfind, hlen⟩ :=
    register_ok_spec email password firstName lastName role cfg now db hrole hnew
  refine ⟨⟨⟨db.nextId, email, firstName, lastName, role⟩,
    generateToken db.nextId role cfg now⟩, db1, ?_, ?_⟩
  · rcases hrole with hr | hr | hr <;> subst hr
    · have hc := hcap rfl
      simp [registerEndpoint, hc, hreg]
    · simp [registerEndpoint, hreg]
    · simp [registerEndpoint, hreg]
  · rcases hrole with hr | hr | hr <;> subst hr
    · have hc := hcap rfl
      have hone : db1.admins.length = 1 := by simp [hlen, hc]
      simp [registerEndpoint, hone, register, hfind]
    · simp [registerEndpoint, register, hfind]
    · simp [registerEndpoint, register, hfind]

/-- Witness for C7: registering the duplicate-registration scenario's
student twice against the empty database. -/
theorem register_duplicate_conflict_witness :
    (("student" : String) = "admin" ∨ ("student" : String) = "teacher" ∨
        ("student" : String) = "student") ∧
    findUserByEmail "a@x.com" ⟨[], [], [], [], 0, 0⟩ = none ∧
    (∃ r db1,
      registerEndpoint "a@x.com" "secret123" "A" "B" "student" ⟨"s", 1000⟩ 0
          ⟨[], [], [], [], 0, 0⟩ = .ok (201, r, db1) ∧
      registerEndpoint "a@x.com" "secret123" "A" "B" "student" ⟨"s", 1000⟩ 1 db1 =
        .error ⟨"User already exists with this email", 400⟩) :=
  ⟨Or.inr (Or.inr rfl), rfl,
    register_duplicate_conflict "a@x.com" "secret123" "A" "B" "secret123" "A" "B"
      "student" ⟨"s", 1000⟩ 0 1 ⟨[], [], [], [], 0, 0⟩ (Or.inr (Or.inr rfl)) rfl
      (fun _ => rfl)⟩

/-- Claim C1: for a fresh valid email and any of the three roles,
`register` succeeds, a subsequent `login` with the same credentials
succeeds, and `verifyToken` accepts the session token it returns, yielding
claims holding the registered identity's id and role. -/
theorem register_login_roundtrip (email password firstName lastName role : String)
    (cfg : Config) (now now2 : Nat) (db : DB)
    (hrole : role = "admin" ∨ role = "teacher" ∨ role = "student")
    (hnew : findUserByEmail email db = none)
    (httl : 0 < cfg.jwtExpireMs) :
    ∃ r db1,
      register email password firstName lastName role cfg now db = .ok (r, db1) ∧
      ∃ lr, login email password cfg now2 db1 = .ok lr ∧
        verifyToken lr.token cfg now2 = .ok ⟨r.user.id, role⟩ := by
  obtain ⟨db1, hreg, hfind, -⟩ :=
    register_ok_spec email password firstName lastName role cfg now db hrole hnew
  refine ⟨_, db1, hreg, ?_⟩
  refine ⟨⟨⟨db.nextId, email, firstName, lastName, role⟩,
    generateToken db.nextId role cfg now2⟩, ?_, ?_⟩
  · simp [login, hfind, bcryptCompare, bcryptHash, userView, generateToken]
  · have hexp : ¬(now2 + cfg.jwtExpireMs ≤ now2) := by omega
    simp [verifyToken, jwtVerify, generateToken, jwtSign, hexp]

/-- Witness for C1: the round trip at a concrete student registration on
the empty database. -/
theorem register_login_roundtrip_witness :
    (("student" : String) = "admin" ∨ ("student" : String) = "teacher" ∨
        ("student" : String) = "student") ∧
    findUserByEmail "a@x.com" ⟨[], [], [], [], 0, 0⟩ = none ∧
    0 < (⟨"s", 1000⟩ : Config).jwtExpireMs ∧
    (∃ r db1,
      register "a@x.com" "secret123" "A" "B" "student" ⟨"s", 1000⟩ 0
          ⟨[], [], [], [], 0, 0⟩ = .ok (r, db1) ∧
      ∃ lr, login "a@x.com" "secret123" ⟨"s", 1000⟩ 5 db1 = .ok lr ∧
        verifyToken lr.token ⟨"s", 1000⟩ 5 = .ok ⟨r.user.id, "student"⟩) :=
  ⟨Or.inr (Or.inr rfl), rfl, by decide,
    register_login_roundtrip "a@x.com" "secret123" "A" "B" "student" ⟨"s", 1000⟩
      0 5 ⟨[], [], [], [], 0, 0⟩ (Or.inr (Or.inr rfl)) rfl (by decide)⟩

lemma setCollection_tokens (role : String) (l : List Identity) (db : DB) :
    (setCollection role l db).tokens = db.tokens := by
  unfold setCollection
  split_ifs <;> rfl

lemma updatePassword_tokens (role : String) (uid : Nat) (h : BcryptHash) (db : DB) :
    (updatePassword role uid h db).tokens = db.tokens := by
  unfold updatePassword
  cases getCollection role db with
  | none => rfl
  | some l => exact setCollection_tokens role _ db

lemma getCollection_set (role : String) (l : List Identity) (db : DB) :
    getCollection role (setCollection role l db) =
      (getCollection role db).map (fun _ => l) := by
  unfold getCollection setCollection
  by_cases h1 : (role == "admin") <;> by_cases h2 : (role == "teacher") <;>
    by_cases h3 : (role == "student") <;> simp [h1, h2, h3]

lemma find?_map_updateId (uid : Nat) (h : BcryptHash) (l : List Identity) :
    (l.map (fun u => if u._id == uid then { u with password := h } else u)).find?
        (fun u => u._id == uid) =
      (l.find? (fun u => u._id == uid)).map (fun u => { u with password := h }) := by
  rw [List.find?_map]
  have hcomp : ((fun u : Identity => u._id == uid) ∘ fun u =>
      if u._id == uid then { u with password := h } else u) =
      (fun u : Identity => u._id == uid) := by
    funext u
    by_cases hu : u._id = uid
    · simp [hu]
    · simp [hu]
  rw [hcomp]
  cases hf : l.find? (fun u => u._id == uid) with
  | none => rfl
  | some u =>
    have hu := List.find?_some hf
    have hu' : u._id = uid := by simpa using hu
    simp [hu']

lemma findUserById_updatePassword (uid : Nat) (role : String) (h : BcryptHash)
    (db : DB) :
    findUserById uid role (updatePassword role uid h db) =
      (findUserById uid role db).map (fun u => { u with password := h }) := by
  unfold updatePassword
  cases hg : getCollection role db with
  | none => simp [findUserById, hg]
  | some l =>
    unfold findUserById
    rw [getCollection_set, hg]
    simp only [Option.map_some']
    exact find?_map_updateId uid h l

lemma deleteOneById_append (id : Nat) (pre rest : List TokenDoc)
    (h : ∀ t ∈ pre, t._id ≠ id) :
    deleteOneById id (pre ++ rest) = pre ++ deleteOneById id rest := by
  induction pre with
  | nil => rfl
  | cons a pre ih =>
    have ha : (a._id == id) = false := by
      simpa using h a (by simp)
    simp [deleteOneById, ha,
      ih (fun t ht => h t (List.mem_cons_of_mem _ ht))]

/-- Claim C2: with a stored reset token that is present and unexpired
(its SHA-256 hash matching the presented raw token, no other stored token
sharing that hash, and its owner resolvable), the first `resetPassword`
succeeds and the owner's new stored hash verifies the new password, and
every second call with the same raw token fails 400
`Invalid or expired reset token`: a token is consumed (deleted) at most
once. -/
theorem reset_token_single_use (rawToken newPassword : String) (now : Nat)
    (pre post : List TokenDoc) (td : TokenDoc) (owner : Identity) (db : DB)
    (htoks : db.tokens = pre ++ td :: post)
    (hhash : td.token = sha256Hex rawToken)
    (htype : td.type = "password-reset")
    (hexp : now < td.expiresAt)
    (hpre : ∀ t ∈ pre, t.token ≠ sha256Hex rawToken)
    (hpost : ∀ t ∈ post, t.token ≠ sha256Hex rawToken)
    (hids : ∀ t ∈ pre, t._id ≠ td._id)
    (howner : findUserById td.user (jsToLower td.userModel) db = some owner) :
    ∃ db1,
      resetPassword rawToken newPassword now db =
        .ok ("Password reset successful", db1) ∧
      (∃ o, findUserById td.user (jsToLower td.userModel) db1 = some o ∧
        bcryptCompare newPassword o.password = true) ∧
      ∀ newPassword2 now2,
        resetPassword rawToken newPassword2 now2 db1 =
          .error ⟨"Invalid or expired reset token", 400⟩ := by
  have hfind : db.tokens.find? (fun t =>
      t.token == sha256Hex rawToken && t.type == "password-reset" &&
        decide (now < t.expiresAt)) = some td := by
    rw [htoks, List.find?_append]
    have hnone : pre.find? (fun t =>
        t.token == sha256Hex rawToken && t.type == "password-reset" &&
          decide (now < t.expiresAt)) = none :=
      List.find?_eq_none.mpr (fun t ht => by simp [hpre t ht])
    simp [hnone, List.find?_cons, hhash, htype, hexp]
  have howner' : findUserById td.user (jsToLower td.userModel)
      { db with nextSalt := db.nextSalt + 1 } = some owner := howner
  refine ⟨{ updatePassword (jsToLower td.userModel) td.user
      (bcryptHash newPassword db.nextSalt)
      { db with nextSalt := db.nextSalt + 1 } with
    tokens := deleteOneById td._id
      (updatePassword (jsToLower td.userModel) td.user
        (bcryptHash newPassword db.nextSalt)
        { db with nextSalt := db.nextSalt + 1 }).tokens }, ?_, ?_, ?_⟩
  · simp only [resetPassword, hfind, howner]
  · have hstep : findUserById td.user (jsToLower td.userModel)
        ({ updatePassword (jsToLower td.userModel) td.user
            (bcryptHash newPassword db.nextSalt)
            { db with nextSalt := db.nextSalt + 1 } with
          tokens := deleteOneById td._id
            (updatePassword (jsToLower td.userModel) td.user
              (bcryptHash newPassword db.nextSalt)
              { db with nextSalt := db.nextSalt + 1 }).tokens } : DB) =
        (findUserById td.user (jsToLower td.userModel)
          { db with nextSalt := db.nextSalt + 1 }).map
            (fun u => { u with password := bcryptHash newPassword db.nextSalt }) := by
      rw [← findUserById_updatePassword]
      rfl
    rw [hstep, howner']
    exact ⟨_, rfl, by simp [bcryptCompare, bcryptHash]⟩
  · intro newPassword2 now2
    have hdel : deleteOneById td._id
        (updatePassword (jsToLower td.userModel) td.user
          (bcryptHash newPassword db.nextSalt)
          { db with nextSalt := db.nextSalt + 1 }).tokens = pre ++ post := by
      rw [updatePassword_tokens]
      show deleteOneById td._id db.tokens = pre ++ post
      rw [htoks, deleteOneById_append td._id pre (td :: post) hids]
      simp [deleteOneById]
    have hnone2 : (pre ++ post).find? (fun t =>
        t.token == sha256Hex rawToken && t.type == "password-reset" &&
          decide (now2 < t.expiresAt)) = none :=
      List.find?_eq_none.mpr (fun t ht => by
        rcases List.mem_append.mp ht with h | h
        · simp [hpre t h]
        · simp [hpost t h])
    simp only [resetPassword, hdel, hnone2]

/-- Witness for C2: a concrete unexpired token for a concrete student is
consumed by the first call; the rest of the conjunction is the theorem's
conclusion at that state. -/
theorem reset_token_single_use_witness :
    ((⟨7, 1, "Student", sha256Hex "rawtok", "password-reset", 100, false⟩ :
        TokenDoc).token = sha256Hex "rawtok" ∧
      findUserById 1 (jsToLower "Student")
        ⟨[], [], [⟨1, "s@x.com", bcryptHash "oldpw" 0, "S", "T"⟩],
         [⟨7, 1, "Student", sha256Hex "rawtok", "password-reset", 100, false⟩],
         2, 1⟩ = some ⟨1, "s@x.com", bcryptHash "oldpw" 0, "S", "T"⟩) ∧
    (∃ db1,
      resetPassword "rawtok" "newpw" 0
          ⟨[], [], [⟨1, "s@x.com", bcryptHash "oldpw" 0, "S", "T"⟩],
           [⟨7, 1, "Student", sha256Hex "rawtok", "password-reset", 100, false⟩],
           2, 1⟩ =
        .ok ("Password reset successful", db1) ∧
      (∃ o, findUserById 1 (jsToLower "Student") db1 = some o ∧
        bcryptCompare "newpw" o.password = true) ∧
      ∀ newPassword2 now2,
        resetPassword "rawtok" newPassword2 now2 db1 =
          .error ⟨"Invalid or expired reset token", 400⟩) :=
  ⟨⟨rfl, rfl⟩,
    reset_token_single_use "rawtok" "newpw" 0 [] []
      ⟨7, 1, "Student", sha256Hex "rawtok", "password-reset", 100, false⟩
      ⟨1, "s@x.com", bcryptHash "oldpw" 0, "S", "T"⟩
      ⟨[], [], [⟨1, "s@x.com", bcryptHash "oldpw" 0, "S", "T"⟩],
       [⟨7, 1, "Student", sha256Hex "rawtok", "password-reset", 100, false⟩],
       2, 1⟩
      rfl rfl rfl (by decide) (by simp) (by simp) (by simp) rfl⟩

/-- A database whose only reset token is already marked `used = true` but
is unexpired; its owner is the sole student. -/
def usedTokenDB : DB :=
  ⟨[], [], [⟨1, "s@x.com", bcryptHash "oldpw" 0, "S", "T"⟩],
   [⟨7, 1, "Student", sha256Hex "rawtok", "password-reset", 100, true⟩], 2, 1⟩

/-- Claim C3 is refuted by the code: `AuthService.resetPassword` queries
only on token hash, type and expiry — it omits `used: false` (unlike
`Token.findValidToken`, `Token.isValid` and the GET verify endpoint) — so
a stored token with `used = true` is accepted and the owner's password is
changed instead of the call failing with 400. -/
theorem resetPassword_accepts_used_token :
    (∀ t ∈ usedTokenDB.tokens, t.used = true) ∧
    resetPassword "rawtok" "newpw" 0 usedTokenDB =
      .ok ("Password reset successful",
        ⟨[], [], [⟨1, "s@x.com", bcryptHash "newpw" 1, "S", "T"⟩], [], 2, 2⟩) ∧
    bcryptCompare "newpw" (bcryptHash "newpw" 1) = true := by
  refine ⟨by decide, ?_, by decide⟩
  rfl

end Portal
